import Mathlib

/-!
Verification of the `@mrsamdev/axios-token-refresh` plugin (`src/index.js`,
the current promise-queue implementation with `refreshTimeout` and
`authHeaderFormatter`).

The response-error interceptor installed by `createRefreshTokenPlugin` is a
single-threaded coordinator: its synchronous prefix (classification,
enqueueing, starting the refresh) is embedded as `handleFailure`, and the
continuation that runs when the raced refresh promise settles (the code after
`await refreshPromise`, including its `catch`/`finally` blocks and the outer
interceptor `catch`) is embedded as `settleRefresh`.  Caller-supplied
callbacks (`shouldRefreshToken`, `onStatusChange`) may throw, which is
modelled with `Except`.  JavaScript exception values are modelled by
`JSValue` (an `Error` object with the plugin-attached `originalError` chain,
or a non-`Error` primitive).
-/

namespace AxiosTokenRefresh

/-- A JavaScript value as far as the plugin inspects it: an `Error` object
(`message`, plus the `originalError` property the plugin attaches for cause
chaining) or a non-`Error` value (a primitive such as a string). -/
inductive JSValue where
  | errorObj (message : String) (originalError : Option JSValue)
  | prim (val : String)

/-- Decidable equality of `JSValue`, by recursion on the `originalError`
chain (the automatic derivation does not handle the nested `Option`). -/
def JSValue.decEq : (a b : JSValue) → Decidable (a = b)
  | .prim x, .prim y =>
    if h : x = y then .isTrue (by rw [h]) else .isFalse (by simp [h])
  | .prim _, .errorObj _ _ => .isFalse (by simp)
  | .errorObj _ _, .prim _ => .isFalse (by simp)
  | .errorObj m1 none, .errorObj m2 none =>
    if h : m1 = m2 then .isTrue (by rw [h]) else .isFalse (by simp [h])
  | .errorObj _ none, .errorObj _ (some _) => .isFalse (by simp)
  | .errorObj _ (some _), .errorObj _ none => .isFalse (by simp)
  | .errorObj m1 (some o1), .errorObj m2 (some o2) =>
    match String.decEq m1 m2, JSValue.decEq o1 o2 with
    | .isTrue h1, .isTrue h2 => .isTrue (by rw [h1, h2])
    | .isFalse h1, _ => .isFalse (by simp [h1])
    | _, .isFalse h2 => .isFalse (by simp [h2])

instance : DecidableEq JSValue := JSValue.decEq

/-- `v instanceof Error`. -/
def JSValue.isError : JSValue → Bool
  | .errorObj _ _ => true
  | .prim _ => false

/-- `refreshError instanceof Error ? refreshError : new Error("Token refresh failed")`
(line 108 of `src/index.js`). -/
def coerceRefreshError (v : JSValue) : JSValue :=
  if v.isError then v else .errorObj "Token refresh failed" none

/-- `interceptorError instanceof Error ? interceptorError : new Error("Unknown error in refresh token interceptor")`
(line 129 of `src/index.js`). -/
def coerceInterceptorError (v : JSValue) : JSValue :=
  if v.isError then v else .errorObj "Unknown error in refresh token interceptor" none

/-- An axios request config.  `retry` is the `_retry` marker the interceptor
sets before admitting a request; `authorization` is
`request.headers["Authorization"]`. -/
structure Request where
  id : Nat
  authorization : Option String := none
  retry : Bool := false
deriving DecidableEq

/-- The response attached to an axios error, when the server answered. -/
structure HttpResponse where
  status : Nat
deriving DecidableEq

/-- An axios error: `config` is the original request description (absent for
failures with no originating request), `response` is absent for
transport-level failures. -/
structure AxiosErr where
  config : Option Request := none
  response : Option HttpResponse := none
deriving DecidableEq

/-- JavaScript truthiness of a `string | null | undefined` value:
`null`/`undefined` and the empty string are falsy. -/
def jsTruthyStr : Option String → Bool
  | none => false
  | some s => !(s == "")

/-- The value of `error?.response ? error.response.status : "Network Error"`:
a number, or the string `"Network Error"`. -/
inductive StatusCode where
  | num (n : Nat)
  | networkError
deriving DecidableEq

/-- `error?.response ? error.response.status : "Network Error"` (line 26). -/
def statusCodeOf (error : Option AxiosErr) : StatusCode :=
  match error with
  | some e =>
    match e.response with
    | some r => .num r.status
    | none => .networkError
  | none => .networkError

/-- The default classifier (lines 25-28 of `src/index.js`):
`(statusCode === 401 || statusCode === "Network Error") && !!getAuthToken()`,
where `getAuthToken` is the caller-supplied credential accessor and
`getAuthTokenValue` is what it currently returns. -/
def defaultShouldRefreshToken (getAuthTokenValue : Option String)
    (error : Option AxiosErr) (_originalRequest : Request) : Bool :=
  let statusCode := statusCodeOf error
  (statusCode == .num 401 || statusCode == .networkError) && jsTruthyStr getAuthTokenValue

/-- The default header formatter (line 32): `(token) => Bearer token` with a
space, i.e. string interpolation of the token after the scheme. -/
def defaultAuthHeaderFormatter (token : String) : String :=
  "Bearer " ++ token

/-- The default refresh timeout (line 33): `refreshTimeout = 10000`. -/
def defaultRefreshTimeout : Nat := 10000

/-- One of the four statuses delivered to `onStatusChange`. -/
inductive RefreshStatus where
  | refreshing
  | success
  | failed
  | error
deriving DecidableEq

/-- The resolved plugin configuration.  `shouldRefreshToken` and
`onStatusChange` are caller-supplied callbacks and may throw (`Except.error`
carries the thrown value); `onStatusChange`'s throwing behaviour may depend
on the status it is called with. -/
structure Config where
  shouldRefreshToken : AxiosErr → Request → Except JSValue Bool
  onStatusChange : RefreshStatus → Except JSValue Unit
  authHeaderFormatter : String → String := defaultAuthHeaderFormatter
  refreshTimeout : Nat := defaultRefreshTimeout

/-- The configuration obtained when the caller supplies only the two required
options, so every optional field keeps its default from the destructuring at
lines 22-34 (the default `onStatusChange` only logs and never throws). -/
def defaultConfig (getAuthTokenValue : Option String) : Config where
  shouldRefreshToken := fun e r => .ok (defaultShouldRefreshToken getAuthTokenValue (some e) r)
  onStatusChange := fun _ => .ok ()

/-- An entry of the `pendingRequests` array: the (mutated) request config and
the identity `pid` of the promise whose `resolve`/`reject` were captured at
lines 69-75. -/
structure PendingRequest where
  request : Request
  pid : Nat
deriving DecidableEq

/-- The coordinator's mutable state: the `pendingRequests` array and the
`isRefreshing` flag.  `refreshCalls` counts invocations of the
caller-supplied `refreshTokenFn` (instrumentation for the single-flight
property) and `nextPid` allocates promise identities. -/
structure CoordState where
  pendingRequests : List PendingRequest := []
  isRefreshing : Bool := false
  refreshCalls : Nat := 0
  nextPid : Nat := 0
deriving DecidableEq

/-- How a pending promise is settled: `resolve(axios(request))` replays the
(possibly header-rewritten) request, `reject v` delivers `v`. -/
inductive PromiseOutcome where
  | retried (request : Request)
  | rejectedWith (v : JSValue)
deriving DecidableEq

/-- A settlement delivered to the promise with identity `pid`. -/
structure Settlement where
  pid : Nat
  outcome : PromiseOutcome
deriving DecidableEq

/-- A status notification delivered to `onStatusChange`, with its optional
error argument. -/
structure Notification where
  status : RefreshStatus
  cause : Option JSValue := none
deriving DecidableEq

/-- What the interceptor invocation itself does with the failing call:
propagate the original error (`return Promise.reject(error)`), return the
`retryPromise` of the enqueued `PendingRequest` (as a joiner, or as the
initiator after the refresh settles), suspend as the initiator awaiting the
refresh (`initiated`), or itself throw an uncaught exception. -/
inductive FailResult where
  | rejectedOriginal
  | joined (pid : Nat)
  | initiated (pid : Nat)
  | returnsPending (pid : Nat)
  | threw (v : JSValue)
deriving DecidableEq

/-- The observable effect of one synchronous step of the coordinator. -/
structure StepOutput where
  state : CoordState
  result : FailResult
  settlements : List Settlement
  notifications : List Notification
deriving DecidableEq

/-- The outer `catch (interceptorError)` block (lines 128-143): coerce the
thrown value, and if a refresh is in progress, notify `error`, reject every
pending request with the coerced value, and reset the session; otherwise do
nothing.  Either way the handler then returns `Promise.reject(error)` with
the original failure — unless `onStatusChange` itself throws, in which case
the exception escapes the handler and no state is touched. -/
def interceptorCatch (cfg : Config) (s : CoordState) (v : JSValue) : StepOutput :=
  let err := coerceInterceptorError v
  if s.isRefreshing then
    match cfg.onStatusChange .error with
    | .error v2 => ⟨s, .threw v2, [], [⟨.error, some err⟩]⟩
    | .ok _ =>
      ⟨{ s with pendingRequests := [], isRefreshing := false },
       .rejectedOriginal,
       s.pendingRequests.map (fun p => ⟨p.pid, .rejectedWith err⟩),
       [⟨.error, some err⟩]⟩
  else ⟨s, .rejectedOriginal, [], []⟩

/-- The synchronous prefix of the response-error interceptor (lines 56-89,
126, 145): bail out when there is no `config`; run the classifier (whose
exception lands in the outer catch); when eligible and not yet retried, mark
`_retry`, enqueue a `PendingRequest`, and either join the active session or
become the initiator — setting `isRefreshing`, notifying `refreshing`, and
invoking `refreshTokenFn` (counted by `refreshCalls`) raced against the
timeout. -/
def handleFailure (cfg : Config) (s : CoordState) (e : AxiosErr) : StepOutput :=
  match e.config with
  | none => ⟨s, .rejectedOriginal, [], []⟩
  | some originalRequest =>
    match cfg.shouldRefreshToken e originalRequest with
    | .error v => interceptorCatch cfg s v
    | .ok should =>
      if should && !originalRequest.retry then
        let req := { originalRequest with retry := true }
        let pid := s.nextPid
        let s1 := { s with
          nextPid := pid + 1
          pendingRequests := s.pendingRequests ++ [⟨req, pid⟩] }
        if s.isRefreshing then
          ⟨s1, .joined pid, [], []⟩
        else
          let s2 := { s1 with isRefreshing := true }
          match cfg.onStatusChange .refreshing with
          | .error v =>
            let o := interceptorCatch cfg s2 v
            ⟨o.state, o.result, o.settlements, ⟨.refreshing, none⟩ :: o.notifications⟩
          | .ok _ =>
            ⟨{ s2 with refreshCalls := s2.refreshCalls + 1 }, .initiated pid, [],
             [⟨.refreshing, none⟩]⟩
      else ⟨s, .rejectedOriginal, [], []⟩

/-- How `Promise.race([refreshTokenFn(), timeoutPromise])` settles: the
refresh resolves with `string | null` before the timeout, the refresh rejects
first, or the timeout fires first (rejecting the race with
`new Error("Token refresh timeout")`, lines 83-87). -/
inductive RefreshOutcome where
  | resolved (token : Option String)
  | rejectedRefresh (v : JSValue)
  | timedOut
deriving DecidableEq

/-- The value `await refreshPromise` produces or throws. -/
def raceResult : RefreshOutcome → Except JSValue (Option String)
  | .resolved t => .ok t
  | .rejectedRefresh v => .error v
  | .timedOut => .error (.errorObj "Token refresh timeout" none)

/-- The inner `catch (refreshError)` block (lines 107-119) followed by the
`finally` (lines 120-123): coerce the cause, notify `failed`, reject every
pending request with a fresh `Error("Token refresh failed")` whose
`originalError` is the coerced cause, clear the queue, and clear
`isRefreshing`.  If `onStatusChange("failed")` itself throws, the `finally`
still clears `isRefreshing` first and the exception then reaches the outer
catch — which, seeing `isRefreshing === false`, does nothing. -/
def refreshCatch (cfg : Config) (s : CoordState) (initPid : Nat)
    (refreshError : JSValue) : StepOutput :=
  let err := coerceRefreshError refreshError
  match cfg.onStatusChange .failed with
  | .ok _ =>
    ⟨{ s with pendingRequests := [], isRefreshing := false },
     .returnsPending initPid,
     s.pendingRequests.map
       (fun p => ⟨p.pid, .rejectedWith (.errorObj "Token refresh failed" (some err))⟩),
     [⟨.failed, some err⟩]⟩
  | .error v2 =>
    let s1 := { s with isRefreshing := false }
    let o := interceptorCatch cfg s1 v2
    ⟨o.state, o.result, o.settlements, ⟨.failed, some err⟩ :: o.notifications⟩

/-- The initiator's continuation once the raced refresh settles (lines
91-123): on success, notify `success` and, for every request in the queue at
settlement time, rewrite its `Authorization` header through
`authHeaderFormatter` when the token is truthy and resolve it with the replay
of the (possibly mutated) request, then clear the queue and the flag; on
rejection or timeout, take the failure path of `refreshCatch`.  `initPid` is
the initiator's own pending promise, which its handler invocation returns
(line 126) after the session settles. -/
def settleRefresh (cfg : Config) (s : CoordState) (initPid : Nat)
    (o : RefreshOutcome) : StepOutput :=
  match raceResult o with
  | .error v => refreshCatch cfg s initPid v
  | .ok newToken =>
    match cfg.onStatusChange .success with
    | .error v =>
      let out := refreshCatch cfg s initPid v
      ⟨out.state, out.result, out.settlements, ⟨.success, none⟩ :: out.notifications⟩
    | .ok _ =>
      ⟨{ s with pendingRequests := [], isRefreshing := false },
       .returnsPending initPid,
       s.pendingRequests.map (fun p =>
         let req :=
           if jsTruthyStr newToken then
             { p.request with authorization := some (cfg.authHeaderFormatter (newToken.getD "")) }
           else p.request
         ⟨p.pid, .retried req⟩),
       [⟨.success, none⟩]⟩

/-- Processing a burst of failed calls in arrival order (each handler's
synchronous prefix runs to completion before the next starts, per the
single-threaded event loop). -/
def runFailures (cfg : Config) (s : CoordState) (es : List AxiosErr) : CoordState :=
  match es with
  | [] => s
  | e :: rest => runFailures cfg (handleFailure cfg s e).state rest

/-- A failure that is admitted to a session: it carries a request config not
yet marked `_retry`, and the classifier returns `true` on it. -/
def EligibleFresh (cfg : Config) (e : AxiosErr) : Prop :=
  ∃ r, e.config = some r ∧ r.retry = false ∧ cfg.shouldRefreshToken e r = .ok true

/-- `typeof v` distinguishes functions from everything else. -/
inductive JSOptionValue where
  | jsFunction
  | notAFunction (typeName : String)
deriving DecidableEq

/-- `typeof v === "function"`. -/
def JSOptionValue.isFunction : JSOptionValue → Bool
  | .jsFunction => true
  | .notAFunction _ => false

/-- The constructor's validation (lines 35-41): `refreshTokenFn` is checked
first, then `getAuthToken`; each failure throws synchronously with the
corresponding message.  Only when both checks pass is the coordination state
(`pendingRequests = []`, `isRefreshing = false`) created and the plugin
returned. -/
def createRefreshTokenPlugin (refreshTokenFn getAuthToken : JSOptionValue) :
    Except String CoordState :=
  if !refreshTokenFn.isFunction then .error "refreshTokenFn must be a function"
  else if !getAuthToken.isFunction then .error "getAuthToken must be a function"
  else .ok {}

/-- The `message` of an `Error` value (`none` for non-`Error` values). -/
def JSValue.messageOf : JSValue → Option String
  | .errorObj m _ => some m
  | .prim _ => none

/-- The `originalError` property of an `Error` value. -/
def JSValue.causeOf : JSValue → Option JSValue
  | .errorObj _ o => o
  | .prim _ => none

/-- A configuration whose classifier always admits and whose status observer
never throws (the behaviour of the default `onStatusChange`). -/
def okConfig : Config where
  shouldRefreshToken := fun _ _ => .ok true
  onStatusChange := fun _ => .ok ()

/-- A request that failed with HTTP status 401 and has not been retried. -/
def err401 (n : Nat) : AxiosErr :=
  ⟨some ⟨n, none, false⟩, some ⟨401⟩⟩

/-- An eligible failure arriving while a session is active only appends its
`PendingRequest` to the queue: no notification, no settlement, no second
refresh. -/
theorem handleFailure_joiner (cfg : Config) (s : CoordState) (e : AxiosErr) (r : Request)
    (hc : e.config = some r) (hcl : cfg.shouldRefreshToken e r = .ok true)
    (hretry : r.retry = false) (hr : s.isRefreshing = true) :
    handleFailure cfg s e =
      ⟨{ s with
          pendingRequests := s.pendingRequests ++ [⟨{ r with retry := true }, s.nextPid⟩]
          nextPid := s.nextPid + 1 },
        .joined s.nextPid, [], []⟩ := by
  simp [handleFailure, hc, hcl, hretry, hr]

/-- An eligible failure arriving with no session active enqueues itself,
raises the flag, notifies `refreshing` and invokes the refresh exactly
once. -/
theorem handleFailure_initiator (cfg : Config) (s : CoordState) (e : AxiosErr) (r : Request)
    (hc : e.config = some r) (hcl : cfg.shouldRefreshToken e r = .ok true)
    (hretry : r.retry = false) (hr : s.isRefreshing = false)
    (hn : cfg.onStatusChange .refreshing = .ok ()) :
    handleFailure cfg s e =
      ⟨{ s with
          pendingRequests := s.pendingRequests ++ [⟨{ r with retry := true }, s.nextPid⟩]
          isRefreshing := true
          refreshCalls := s.refreshCalls + 1
          nextPid := s.nextPid + 1 },
        .initiated s.nextPid, [], [⟨.refreshing, none⟩]⟩ := by
  simp [handleFailure, hc, hcl, hretry, hr, hn]

/-- Processing a burst of eligible failures while a session is active keeps
the flag up, never re-invokes the refresh, and admits every failure to the
queue. -/
theorem runFailures_joins (cfg : Config) (es : List AxiosErr) :
    ∀ s : CoordState, s.isRefreshing = true →
      (∀ e ∈ es, EligibleFresh cfg e) →
      (runFailures cfg s es).isRefreshing = true ∧
      (runFailures cfg s es).refreshCalls = s.refreshCalls ∧
      (runFailures cfg s es).pendingRequests.length
        = s.pendingRequests.length + es.length := by
  induction es with
  | nil => intro s hr _; exact ⟨hr, rfl, rfl⟩
  | cons e rest ih =>
    intro s hr hel
    obtain ⟨r, hc, hretry, hcl⟩ := hel e (List.mem_cons_self e rest)
    rw [runFailures, handleFailure_joiner cfg s e r hc hcl hretry hr]
    dsimp only
    have h2 := ih { s with
        pendingRequests := s.pendingRequests ++ [⟨{ r with retry := true }, s.nextPid⟩]
        nextPid := s.nextPid + 1 } hr (fun x hx => hel x (List.mem_cons_of_mem e hx))
    refine ⟨h2.1, h2.2.1, ?_⟩
    rw [h2.2.2]
    simp [List.length_append]
    omega

/-- When the status observer returns normally, any settlement of the raced
refresh clears the queue and the flag, returns the initiator's own pending
promise, and settles exactly the promises that were waiting at settlement
time. -/
theorem settleRefresh_clears (cfg : Config) (s : CoordState) (initPid : Nat)
    (o : RefreshOutcome) (hn : ∀ st, cfg.onStatusChange st = .ok ()) :
    (settleRefresh cfg s initPid o).state.pendingRequests = [] ∧
    (settleRefresh cfg s initPid o).state.isRefreshing = false ∧
    (settleRefresh cfg s initPid o).state.refreshCalls = s.refreshCalls ∧
    (settleRefresh cfg s initPid o).state.nextPid = s.nextPid ∧
    (settleRefresh cfg s initPid o).settlements.map (fun t => t.pid)
      = s.pendingRequests.map (fun p => p.pid) ∧
    (settleRefresh cfg s initPid o).result = .returnsPending initPid := by
  cases o <;>
    simp [settleRefresh, raceResult, refreshCatch, hn RefreshStatus.success,
      hn RefreshStatus.failed, List.map_map, Function.comp]

/-- The safety-net catch, entered with the flag up and a status observer that
returns normally, notifies `error`, rejects every waiting request with the
coerced thrown value, and resets the session. -/
theorem interceptorCatch_resets (cfg : Config) (s : CoordState) (v : JSValue)
    (hr : s.isRefreshing = true) (hn : cfg.onStatusChange .error = .ok ()) :
    interceptorCatch cfg s v =
      ⟨{ s with pendingRequests := [], isRefreshing := false },
        .rejectedOriginal,
        s.pendingRequests.map (fun p => ⟨p.pid, .rejectedWith (coerceInterceptorError v)⟩),
        [⟨.error, some (coerceInterceptorError v)⟩]⟩ := by
  simp [interceptorCatch, hr, hn]

/-- C2: the default `shouldRefreshToken` returns true iff (the error carries
response status 401, or it is a transport-level failure with no response) and
the credential accessor currently returns a credential — where, per the
source's `!!getAuthToken()` truthiness test, "returns a credential" means a
non-null, non-empty token.  In particular it returns false for any other
status code and when no credential is held. -/
theorem C2_default_classifier_policy (tok : Option String) (error : Option AxiosErr)
    (req : Request) :
    defaultShouldRefreshToken tok error req = true ↔
      (((∃ e r, error = some e ∧ e.response = some r ∧ r.status = 401) ∨
          (∀ e, error = some e → e.response = none)) ∧
        jsTruthyStr tok = true) := by
  cases error with
  | none => simp [defaultShouldRefreshToken, statusCodeOf]
  | some e =>
    cases he : e.response with
    | none => simp [defaultShouldRefreshToken, statusCodeOf, he]
    | some r =>
      simp [defaultShouldRefreshToken, statusCodeOf, he]

/-- C3: a failed call with no request description, or whose classifier
returns false, or whose request is already marked `_retry`, is rejected with
the original failure unchanged: no enqueue, no renewal, no notification — the
coordinator state is untouched even when the failure of an already-retried
request is otherwise classifier-eligible. -/
theorem C3_not_retryable_propagates (cfg : Config) (s : CoordState) (e : AxiosErr)
    (h : e.config = none ∨
      ∃ r b, e.config = some r ∧ cfg.shouldRefreshToken e r = .ok b ∧
        (b = false ∨ r.retry = true)) :
    handleFailure cfg s e = ⟨s, .rejectedOriginal, [], []⟩ := by
  rcases h with h | ⟨r, b, hc, hcl, hb⟩
  · simp [handleFailure, h]
  · rcases hb with hb | hb
    · subst hb
      simp [handleFailure, hc, hcl]
    · simp [handleFailure, hc, hcl, hb]

/-- C3 witness: a 401 failure whose request is already marked retried (and is
classifier-eligible) is propagated unchanged with no state change. -/
theorem C3_witness :
    handleFailure okConfig ⟨[], false, 5, 7⟩ ⟨some ⟨1, none, true⟩, some ⟨401⟩⟩
      = ⟨⟨[], false, 5, 7⟩, .rejectedOriginal, [], []⟩ :=
  C3_not_retryable_propagates okConfig ⟨[], false, 5, 7⟩ ⟨some ⟨1, none, true⟩, some ⟨401⟩⟩
    (Or.inr ⟨⟨1, none, true⟩, true, rfl, rfl, Or.inr rfl⟩)

/-- C5: when the refresh resolves with a concrete credential (a truthy token,
per the source's `if (newToken)` guard: non-null and non-empty), every
waiting request's authorization header is rewritten to the formatter applied
to that credential (default `Bearer <token>`) and the request is resolved
with the replay of the mutated request; when it resolves with the explicit
no-new-credential signal (`null`), no header is rewritten and the requests
are replayed unmodified. -/
theorem C5_credential_rewrite_on_success (cfg : Config)
    (hn : cfg.onStatusChange .success = .ok ()) (s : CoordState) (initPid : Nat) :
    (∀ t : String, t ≠ "" →
      (settleRefresh cfg s initPid (.resolved (some t))).settlements
        = s.pendingRequests.map (fun p =>
            ⟨p.pid, .retried
              { p.request with authorization := some (cfg.authHeaderFormatter t) }⟩)) ∧
    (∀ t : String, defaultAuthHeaderFormatter t = "Bearer " ++ t) ∧
    (settleRefresh cfg s initPid (.resolved none)).settlements
      = s.pendingRequests.map (fun p => ⟨p.pid, .retried p.request⟩) := by
  refine ⟨?_, fun t => rfl, ?_⟩
  · intro t ht
    simp [settleRefresh, raceResult, hn, jsTruthyStr, ht]
  · simp [settleRefresh, raceResult, hn, jsTruthyStr]

/-- C5 witness: with the default formatter, one waiting request is replayed
with header `Bearer abc` after the refresh resolves with `abc`. -/
theorem C5_witness :
    (settleRefresh okConfig ⟨[⟨⟨1, none, true⟩, 0⟩], true, 1, 1⟩ 0
        (.resolved (some "abc"))).settlements
      = [⟨0, .retried ⟨1, some "Bearer abc", true⟩⟩] := by
  have h := (C5_credential_rewrite_on_success okConfig rfl
    ⟨[⟨⟨1, none, true⟩, 0⟩], true, 1, 1⟩ 0).1 "abc" (by decide)
  simpa using h

/-- C10: `createRefreshTokenPlugin` rejects synchronously with message
`refreshTokenFn must be a function` when `refreshTokenFn` is not a function,
and with `getAuthToken must be a function` when `refreshTokenFn` is a
function but `getAuthToken` is not; in either failure case no coordination
state is ever created. -/
theorem C10_constructor_validation (f g : JSOptionValue) :
    (f.isFunction = false →
      createRefreshTokenPlugin f g = .error "refreshTokenFn must be a function") ∧
    (f.isFunction = true → g.isFunction = false →
      createRefreshTokenPlugin f g = .error "getAuthToken must be a function") ∧
    ((f.isFunction = false ∨ g.isFunction = false) →
      ∀ s : CoordState, createRefreshTokenPlugin f g ≠ .ok s) := by
  refine ⟨?_, ?_, ?_⟩
  · intro hf
    simp [createRefreshTokenPlugin, hf]
  · intro hf hg
    simp [createRefreshTokenPlugin, hf, hg]
  · rintro (hf | hg) s
    · simp [createRefreshTokenPlugin, hf]
    · cases hf : f.isFunction <;> simp [createRefreshTokenPlugin, hf, hg]

/-- C10 witness: a non-function `refreshTokenFn` is rejected with the first
message. -/
theorem C10_witness :
    createRefreshTokenPlugin (.notAFunction "undefined") .jsFunction
      = .error "refreshTokenFn must be a function" :=
  (C10_constructor_validation (.notAFunction "undefined") .jsFunction).1 rfl

/-- C4 counterexample: when `refreshTokenFn` rejects with a non-`Error`
value (here the primitive `"oops"`), the waiting request is rejected with
`Error("Token refresh failed")` whose attached `originalError` is itself a
fresh `Error("Token refresh failed")` — not the original cause, which is
swallowed by the `instanceof Error` coercion at line 108. -/
theorem C4_counterexample :
    (settleRefresh okConfig ⟨[⟨⟨1, none, true⟩, 0⟩], true, 1, 1⟩ 0
        (.rejectedRefresh (.prim "oops"))).settlements
      = [⟨0, .rejectedWith (.errorObj "Token refresh failed"
            (some (.errorObj "Token refresh failed" none)))⟩] ∧
    (JSValue.errorObj "Token refresh failed" none) ≠ (JSValue.prim "oops") := by
  exact ⟨rfl, by decide⟩

/-- C4 amended: whenever the raced refresh rejects or times out (the timeout
rejecting the race with `Error("Token refresh timeout")` and defaulting to
10000 ms) and the status observer returns normally, every waiting request is
rejected with a stable `Error("Token refresh failed")` carrying as
`originalError` the coerced cause — which is the original cause exactly when
that cause is an `Error` object (a non-`Error` cause is replaced by a generic
`Error("Token refresh failed")` and not preserved) — the observer is
notified `failed` with that coerced cause, and the wait set is cleared. -/
theorem C4_renewal_failure_fanout (cfg : Config)
    (hn : ∀ st, cfg.onStatusChange st = .ok ())
    (s : CoordState) (initPid : Nat) (o : RefreshOutcome) (v : JSValue)
    (hfail : raceResult o = .error v) :
    (settleRefresh cfg s initPid o).settlements
      = s.pendingRequests.map (fun p =>
          ⟨p.pid, .rejectedWith
            (.errorObj "Token refresh failed" (some (coerceRefreshError v)))⟩) ∧
    (settleRefresh cfg s initPid o).notifications
      = [⟨.failed, some (coerceRefreshError v)⟩] ∧
    (settleRefresh cfg s initPid o).state.pendingRequests = [] ∧
    (settleRefresh cfg s initPid o).state.isRefreshing = false ∧
    (v.isError = true → coerceRefreshError v = v) ∧
    raceResult .timedOut = .error (.errorObj "Token refresh timeout" none) ∧
    defaultRefreshTimeout = 10000 := by
  cases o with
  | resolved t => exact absurd hfail (by simp [raceResult])
  | rejectedRefresh w =>
    have hv : w = v := by simpa [raceResult] using hfail
    subst hv
    refine ⟨?_, ?_, ?_, ?_, ?_, rfl, rfl⟩ <;>
      simp [settleRefresh, raceResult, refreshCatch, hn RefreshStatus.failed,
        coerceRefreshError, JSValue.isError]
    intro h
    simp [h]
  | timedOut =>
    have hv : JSValue.errorObj "Token refresh timeout" none = v := by
      simpa [raceResult] using hfail
    subst hv
    refine ⟨?_, ?_, ?_, ?_, ?_, rfl, rfl⟩ <;>
      simp [settleRefresh, raceResult, refreshCatch, hn RefreshStatus.failed,
        coerceRefreshError, JSValue.isError]

/-- C4 witness: on timeout, one waiting request is rejected with
`Error("Token refresh failed")` whose `originalError` is the timeout error
itself. -/
theorem C4_witness :
    (settleRefresh okConfig ⟨[⟨⟨1, none, true⟩, 0⟩], true, 1, 1⟩ 0 .timedOut).settlements
      = [⟨0, .rejectedWith (.errorObj "Token refresh failed"
            (some (.errorObj "Token refresh timeout" none)))⟩] := by
  have h := (C4_renewal_failure_fanout okConfig (fun _ => rfl)
    ⟨[⟨⟨1, none, true⟩, 0⟩], true, 1, 1⟩ 0 .timedOut
    (.errorObj "Token refresh timeout" none) rfl).1
  simpa using h

/-- C8 counterexample: with one waiting request and a session in progress,
an internal exception carrying `Error("boom")` rejects the waiting request
with that very error — message `"boom"`, wrapping no cause — not with a new
error of kind `interceptor error` wrapping the underlying cause (the code at
lines 135-137 passes the coerced exception itself to `reject`). -/
theorem C8_counterexample :
    (interceptorCatch okConfig ⟨[⟨⟨1, none, true⟩, 0⟩], true, 1, 1⟩
        (.errorObj "boom" none)).settlements
      = [⟨0, .rejectedWith (.errorObj "boom" none)⟩] ∧
    (JSValue.errorObj "boom" none).messageOf = some "boom" ∧
    (JSValue.errorObj "boom" none).causeOf = none := by
  exact ⟨rfl, rfl, rfl⟩

/-- C8 amended: if an exception is raised inside the coordinator's own
control flow while a renewal is in progress and the status observer returns
normally from the `error` notification, the observer is notified `error`,
every waiting request is rejected with the underlying cause itself (coerced
to a generic `Error("Unknown error in refresh token interceptor")`, with no
attached cause, when the raised value is not an `Error`), and the in-progress
flag and wait set are forcibly reset. -/
theorem C8_internal_exception_safety_net (cfg : Config) (s : CoordState) (v : JSValue)
    (hr : s.isRefreshing = true) (hn : cfg.onStatusChange .error = .ok ()) :
    interceptorCatch cfg s v =
      ⟨{ s with pendingRequests := [], isRefreshing := false },
        .rejectedOriginal,
        s.pendingRequests.map (fun p => ⟨p.pid, .rejectedWith (coerceInterceptorError v)⟩),
        [⟨.error, some (coerceInterceptorError v)⟩]⟩ ∧
    (v.isError = true → coerceInterceptorError v = v) ∧
    (v.isError = false → coerceInterceptorError v
      = .errorObj "Unknown error in refresh token interceptor" none) := by
  refine ⟨interceptorCatch_resets cfg s v hr hn, ?_, ?_⟩ <;>
    · intro h
      simp [coerceInterceptorError, h]

/-- C8 witness: a thrown `Error("boom")` during an active session rejects the
one waiting request with `Error("boom")` and resets the session. -/
theorem C8_witness :
    interceptorCatch okConfig ⟨[⟨⟨1, none, true⟩, 0⟩], true, 1, 1⟩ (.errorObj "boom" none)
      = ⟨⟨[], false, 1, 1⟩, .rejectedOriginal,
          [⟨0, .rejectedWith (.errorObj "boom" none)⟩],
          [⟨.error, some (.errorObj "boom" none)⟩]⟩ := by
  have h := (C8_internal_exception_safety_net okConfig
    ⟨[⟨⟨1, none, true⟩, 0⟩], true, 1, 1⟩ (.errorObj "boom" none) rfl rfl).1
  simpa using h

/-- A configuration whose status observer throws when called with `failed`
(and returns normally otherwise) — a misbehaving caller-supplied
`onStatusChange`. -/
def observerThrowsOnFailed : Config where
  shouldRefreshToken := fun _ _ => .ok true
  onStatusChange := fun st =>
    if st = .failed then .error (.errorObj "observer crashed" none) else .ok ()

/-- C9: the exactly-once settlement invariant fails on the code.  With an
observer that throws during the `failed` notification, an eligible 401
failure is admitted (pid 0), the refresh rejects, and the settlement step
emits no settlement at all while leaving the admitted request in the queue:
the `finally` at lines 120-123 clears `isRefreshing` before the outer catch
at line 132 tests it, so the safety-net rejection is skipped and the admitted
request's promise is never settled. -/
theorem C9_exactly_once_violated :
    (handleFailure observerThrowsOnFailed {} ⟨some ⟨1, none, false⟩, some ⟨401⟩⟩).result
      = .initiated 0 ∧
    (handleFailure observerThrowsOnFailed {} ⟨some ⟨1, none, false⟩, some ⟨401⟩⟩).state
      = ⟨[⟨⟨1, none, true⟩, 0⟩], true, 1, 1⟩ ∧
    settleRefresh observerThrowsOnFailed ⟨[⟨⟨1, none, true⟩, 0⟩], true, 1, 1⟩ 0
        (.rejectedRefresh (.errorObj "refresh down" none))
      = ⟨⟨[⟨⟨1, none, true⟩, 0⟩], false, 1, 1⟩, .rejectedOriginal, [],
          [⟨.failed, some (.errorObj "refresh down" none)⟩]⟩ := by
  exact ⟨rfl, rfl, rfl⟩

/-- C6: an eligible failure that joins while the renewal is still pending is
included in the settlement fan-out: the wait set is read at settlement time,
so the late joiner's promise is among the settled ones whatever the outcome
(success, rejection or timeout). -/
theorem C6_late_joiner_included (cfg : Config)
    (hn : ∀ st, cfg.onStatusChange st = .ok ())
    (s : CoordState) (hr : s.isRefreshing = true) (e : AxiosErr)
    (hel : EligibleFresh cfg e) (initPid : Nat) (o : RefreshOutcome) :
    ∃ pid, (handleFailure cfg s e).result = .joined pid ∧
      pid ∈ (settleRefresh cfg (handleFailure cfg s e).state initPid o).settlements.map
        (fun t => t.pid) := by
  obtain ⟨r, hc, hretry, hcl⟩ := hel
  rw [handleFailure_joiner cfg s e r hc hcl hretry hr]
  refine ⟨s.nextPid, rfl, ?_⟩
  rw [(settleRefresh_clears cfg _ initPid o hn).2.2.2.2.1]
  simp

/-- C6 witness: a second 401 failure joining after the session started is
settled by the success fan-out. -/
theorem C6_witness :
    ∃ pid, (handleFailure okConfig ⟨[⟨⟨1, none, true⟩, 0⟩], true, 1, 1⟩ (err401 2)).result
        = .joined pid ∧
      pid ∈ (settleRefresh okConfig
          (handleFailure okConfig ⟨[⟨⟨1, none, true⟩, 0⟩], true, 1, 1⟩ (err401 2)).state
          0 (.resolved (some "abc"))).settlements.map (fun t => t.pid) :=
  C6_late_joiner_included okConfig (fun _ => rfl) ⟨[⟨⟨1, none, true⟩, 0⟩], true, 1, 1⟩ rfl
    (err401 2) ⟨⟨2, none, false⟩, rfl, rfl, rfl⟩ 0 (.resolved (some "abc"))

/-- C7: a call arriving while a session is active triggers no second renewal
(the refresh-invocation count and the flag are unchanged, and nothing is
notified or settled by its own invocation); it merely appends a
`PendingRequest` capturing its own promise and returns that promise, and at
settlement the initiator settles exactly that promise directly — push-based,
with no polling step in the model. -/
theorem C7_joiner_push_settled (cfg : Config)
    (hn : ∀ st, cfg.onStatusChange st = .ok ())
    (s : CoordState) (hr : s.isRefreshing = true)
    (hfresh : ∀ p ∈ s.pendingRequests, p.pid < s.nextPid)
    (e : AxiosErr) (hel : EligibleFresh cfg e) (initPid : Nat) (o : RefreshOutcome) :
    (handleFailure cfg s e).result = .joined s.nextPid ∧
    (handleFailure cfg s e).state.refreshCalls = s.refreshCalls ∧
    (handleFailure cfg s e).state.isRefreshing = true ∧
    (handleFailure cfg s e).settlements = [] ∧
    (handleFailure cfg s e).notifications = [] ∧
    (∃ r, e.config = some r ∧
      (handleFailure cfg s e).state.pendingRequests
        = s.pendingRequests ++ [⟨{ r with retry := true }, s.nextPid⟩]) ∧
    ((settleRefresh cfg (handleFailure cfg s e).state initPid o).settlements.map
        (fun t => t.pid)).count s.nextPid = 1 := by
  obtain ⟨r, hc, hretry, hcl⟩ := hel
  rw [handleFailure_joiner cfg s e r hc hcl hretry hr]
  refine ⟨rfl, rfl, hr, rfl, rfl, ⟨r, hc, rfl⟩, ?_⟩
  rw [(settleRefresh_clears cfg _ initPid o hn).2.2.2.2.1]
  dsimp only
  rw [List.map_append, List.count_append]
  have hz : (s.pendingRequests.map (fun p => p.pid)).count s.nextPid = 0 := by
    rw [List.count_eq_zero]
    simp only [List.mem_map, not_exists, not_and]
    intro p hp hpe
    exact absurd hpe (Nat.ne_of_lt (hfresh p hp))
  rw [hz]
  simp

/-- C7 witness: with one request already waiting, a joining 401 failure gets
promise 1, which the success fan-out settles exactly once. -/
theorem C7_witness :
    (handleFailure okConfig ⟨[⟨⟨1, none, true⟩, 0⟩], true, 1, 1⟩ (err401 2)).result
      = .joined 1 ∧
    (handleFailure okConfig ⟨[⟨⟨1, none, true⟩, 0⟩], true, 1, 1⟩ (err401 2)).state.refreshCalls
      = 1 := by
  have h := C7_joiner_push_settled okConfig (fun _ => rfl)
    ⟨[⟨⟨1, none, true⟩, 0⟩], true, 1, 1⟩ rfl
    (by intro p hp; simp at hp; subst hp; decide)
    (err401 2) ⟨⟨2, none, false⟩, rfl, rfl, rfl⟩ 0 (.resolved (some "abc"))
  exact ⟨h.1, h.2.1⟩

/-- C1: single-flight with reset.  From a quiescent state, a burst of N ≥ 1
concurrent eligible failures invokes the refresh exactly once and admits all
N requests to the one session; settling that session (success, rejection or
timeout) settles exactly the N admitted promises from its one outcome and
clears the flag and the queue, after which a further eligible failure starts
a brand-new renewal; the reset equally follows an internal-error settlement
through the safety-net catch. -/
theorem C1_single_flight_with_reset (cfg : Config)
    (hn : ∀ st, cfg.onStatusChange st = .ok ())
    (s : CoordState) (hq : s.isRefreshing = false) (hq0 : s.pendingRequests = [])
    (e : AxiosErr) (es : List AxiosErr)
    (hel : ∀ x ∈ e :: es, EligibleFresh cfg x)
    (initPid : Nat) (o : RefreshOutcome) (v : JSValue)
    (e2 : AxiosErr) (hel2 : EligibleFresh cfg e2) :
    (runFailures cfg s (e :: es)).refreshCalls = s.refreshCalls + 1 ∧
    (runFailures cfg s (e :: es)).isRefreshing = true ∧
    (runFailures cfg s (e :: es)).pendingRequests.length = (e :: es).length ∧
    (settleRefresh cfg (runFailures cfg s (e :: es)) initPid o).settlements.length
      = (e :: es).length ∧
    (settleRefresh cfg (runFailures cfg s (e :: es)) initPid o).settlements.map
        (fun t => t.pid)
      = (runFailures cfg s (e :: es)).pendingRequests.map (fun p => p.pid) ∧
    (settleRefresh cfg (runFailures cfg s (e :: es)) initPid o).state.isRefreshing = false ∧
    (settleRefresh cfg (runFailures cfg s (e :: es)) initPid o).state.pendingRequests = [] ∧
    (handleFailure cfg (settleRefresh cfg (runFailures cfg s (e :: es)) initPid o).state
        e2).result
      = .initiated (settleRefresh cfg (runFailures cfg s (e :: es)) initPid o).state.nextPid ∧
    (handleFailure cfg (settleRefresh cfg (runFailures cfg s (e :: es)) initPid o).state
        e2).state.refreshCalls
      = s.refreshCalls + 2 ∧
    (interceptorCatch cfg (runFailures cfg s (e :: es)) v).state.isRefreshing = false ∧
    (handleFailure cfg (interceptorCatch cfg (runFailures cfg s (e :: es)) v).state e2).result
      = .initiated (interceptorCatch cfg (runFailures cfg s (e :: es)) v).state.nextPid := by
  obtain ⟨r, hc, hretry, hcl⟩ := hel e (List.mem_cons_self e es)
  obtain ⟨r2, hc2, hretry2, hcl2⟩ := hel2
  have hrun : runFailures cfg s (e :: es)
      = runFailures cfg { s with
          pendingRequests := s.pendingRequests ++ [⟨{ r with retry := true }, s.nextPid⟩]
          isRefreshing := true
          refreshCalls := s.refreshCalls + 1
          nextPid := s.nextPid + 1 } es := by
    rw [runFailures, handleFailure_initiator cfg s e r hc hcl hretry hq (hn .refreshing)]
  have hj := runFailures_joins cfg es { s with
      pendingRequests := s.pendingRequests ++ [⟨{ r with retry := true }, s.nextPid⟩]
      isRefreshing := true
      refreshCalls := s.refreshCalls + 1
      nextPid := s.nextPid + 1 } rfl (fun x hx => hel x (List.mem_cons_of_mem e hx))
  rw [hrun] at *
  have hcalls : (runFailures cfg { s with
      pendingRequests := s.pendingRequests ++ [⟨{ r with retry := true }, s.nextPid⟩]
      isRefreshing := true
      refreshCalls := s.refreshCalls + 1
      nextPid := s.nextPid + 1 } es).refreshCalls = s.refreshCalls + 1 := hj.2.1
  have hlen : (runFailures cfg { s with
      pendingRequests := s.pendingRequests ++ [⟨{ r with retry := true }, s.nextPid⟩]
      isRefreshing := true
      refreshCalls := s.refreshCalls + 1
      nextPid := s.nextPid + 1 } es).pendingRequests.length = (e :: es).length := by
    rw [hj.2.2]
    simp [hq0]
    omega
  have hset := settleRefresh_clears cfg (runFailures cfg { s with
      pendingRequests := s.pendingRequests ++ [⟨{ r with retry := true }, s.nextPid⟩]
      isRefreshing := true
      refreshCalls := s.refreshCalls + 1
      nextPid := s.nextPid + 1 } es) initPid o hn
  have hsetlen : (settleRefresh cfg (runFailures cfg { s with
      pendingRequests := s.pendingRequests ++ [⟨{ r with retry := true }, s.nextPid⟩]
      isRefreshing := true
      refreshCalls := s.refreshCalls + 1
      nextPid := s.nextPid + 1 } es) initPid o).settlements.length = (e :: es).length := by
    have h1 := congrArg List.length hset.2.2.2.2.1
    simpa [hlen] using h1
  have hinit2 := handleFailure_initiator cfg (settleRefresh cfg (runFailures cfg { s with
      pendingRequests := s.pendingRequests ++ [⟨{ r with retry := true }, s.nextPid⟩]
      isRefreshing := true
      refreshCalls := s.refreshCalls + 1
      nextPid := s.nextPid + 1 } es) initPid o).state e2 r2 hc2 hcl2 hretry2
    hset.2.1 (hn .refreshing)
  have hic := interceptorCatch_resets cfg (runFailures cfg { s with
      pendingRequests := s.pendingRequests ++ [⟨{ r with retry := true }, s.nextPid⟩]
      isRefreshing := true
      refreshCalls := s.refreshCalls + 1
      nextPid := s.nextPid + 1 } es) v hj.1 (hn .error)
  have hinit3 := handleFailure_initiator cfg (interceptorCatch cfg (runFailures cfg { s with
      pendingRequests := s.pendingRequests ++ [⟨{ r with retry := true }, s.nextPid⟩]
      isRefreshing := true
      refreshCalls := s.refreshCalls + 1
      nextPid := s.nextPid + 1 } es) v).state e2 r2 hc2 hcl2 hretry2
    (by rw [hic]) (hn .refreshing)
  refine ⟨hcalls, hj.1, hlen, hsetlen, hset.2.2.2.2.1, hset.2.1, hset.1, ?_, ?_, ?_, ?_⟩
  · rw [hinit2]
  · rw [hinit2]
    dsimp only
    rw [hset.2.2.1, hcalls]
  · rw [hic]
  · rw [hinit3]

/-- C1 witness: two concurrent 401 failures from the quiescent initial state
invoke the refresh exactly once. -/
theorem C1_witness :
    (runFailures okConfig {} [err401 1, err401 2]).refreshCalls = 1 := by
  have h := (C1_single_flight_with_reset okConfig (fun _ => rfl) {} rfl rfl
    (err401 1) [err401 2]
    (by
      intro x hx
      simp [List.mem_cons] at hx
      rcases hx with h1 | h1 <;> subst h1 <;>
        exact ⟨_, rfl, rfl, rfl⟩)
    0 (.resolved (some "abc")) (.prim "x") (err401 3)
    ⟨⟨3, none, false⟩, rfl, rfl, rfl⟩).1
  simpa using h

end AxiosTokenRefresh
